import Mathlib

/-!
Verification of the attention-detection core (evidence fusion, calibration,
temporal trackers and the alarm/challenge escalation state machine).

The definitions below are a shallow embedding of the TypeScript sources:
* the per-frame evidence fusion and classification from
  `useAttentionDetector.ts` (`handleLandmarks`),
* the alarm library, challenge protocol and `silenceAlarm` acknowledgment,
* the missing-landmark (absence) handling and the absence-countdown latch,
* the calibration accumulator,
* `HeadNodDetector` from `headPitch.ts` and `YawnDetector` from `yawning.ts`.

Numbers are modelled as exact rationals (`ℚ`); JavaScript strings as `String`;
values drawn from `Math.random()` are supplied as explicit oracle inputs
(`Rng`), since randomness is external nondeterminism for the core.
-/

namespace Attn

/-- Attention state classification (src/types/attention.ts). -/
inductive AttentionState
  | awake
  | noddingOff
  | sleeping
deriving DecidableEq, Repr

/-- Alarm severity level (useAttentionDetector.ts `AlarmDefinition.level`). -/
inductive AlarmLevel
  | warning
  | critical
deriving DecidableEq, Repr

/-- Challenge kinds gating alarm acknowledgment (useAttentionDetector.ts). -/
inductive ChallengeType
  | phrase
  | math
  | trivia
deriving DecidableEq, Repr

/-- Posture lean direction (postureAnalysis.ts `isAbnormalLean`). -/
inductive LeanDirection
  | forward
  | backward
  | neutral
deriving DecidableEq, Repr

/-! ## Tunable thresholds (useAttentionDetector.ts, top of file) -/

/-- Fallback EAR threshold if calibration fails. -/
def BASE_EAR_THRESHOLD : ℚ := 1/5

/-- Seconds of closed eyes indicating nodding risk. -/
def EYES_CLOSED_NOD_SEC : ℚ := 7/2

/-- Seconds of closed eyes indicating likely sleep. -/
def EYES_CLOSED_SLEEP_SEC : ℚ := 5

/-- Degrees of head tilt before flagging posture risk. -/
def HEAD_TILT_THRESHOLD : ℚ := 30

/-- Forward pitch that indicates nodding risk. -/
def HEAD_PITCH_THRESHOLD : ℚ := 10

/-- Backward pitch that indicates lean back risk. -/
def HEAD_PITCH_BACK_THRESHOLD : ℚ := 12

/-- Detection frame rate. -/
def FPS : ℚ := 30

/-- Calibration window length in ms. -/
def CALIBRATION_DURATION_MS : ℚ := 4000

/-- Minimum number of calibration samples. -/
def MIN_CALIBRATION_FRAMES : Nat := 90

/-- Blink filter: minimum consecutive closed frames before counting
eye-closure time (`MIN_CLOSED_FRAMES` in `handleLandmarks`). -/
def MIN_CLOSED_FRAMES : Nat := 15

/-! ## Small numeric helpers (useAttentionDetector.ts `median` / `average`) -/

/-- Insert a value into an ascending list, keeping it sorted. Together with
`sortAsc` this models the `values.sort((a, b) => a - b)` call. -/
def insertSorted (x : ℚ) : List ℚ → List ℚ
  | [] => [x]
  | y :: ys => if x ≤ y then x :: y :: ys else y :: insertSorted x ys

/-- Ascending insertion sort over rationals. -/
def sortAsc (xs : List ℚ) : List ℚ := xs.foldr insertSorted []

/-- `median` from useAttentionDetector.ts: 0 on empty input, the middle of the
sorted list (mean of the two middle entries for even length). -/
def median (values : List ℚ) : ℚ :=
  if values = [] then 0
  else
    let sorted := sortAsc values
    let mid := sorted.length / 2
    if sorted.length % 2 = 0 then (sorted.getD (mid - 1) 0 + sorted.getD mid 0) / 2
    else sorted.getD mid 0

/-- `average` from useAttentionDetector.ts: 0 on empty input, else sum / length. -/
def average (values : List ℚ) : ℚ :=
  if values = [] then 0 else values.sum / values.length

/-- `isDrowsyYawnRate` from yawning.ts: flags drowsiness at `yawnCount >= 2`. -/
def isDrowsyYawnRate (yawnCount : Nat) : Bool := 2 ≤ yawnCount

/-! ## Evidence fusion (handleLandmarks, evidence aggregation section)

Per frame the source seeds three accumulators (`awake = 0.3`,
`nodding = 0`, `sleeping = 0`) and then runs a fixed sequence of independent
`if (...) score += w` rules, one `if/else-if` chain keyed on the closed-eye
duration, one reassignment block for the awake score, a posture block, a
uniform 20% discount under low body presence, clamping, and normalization.
Each accumulator below is written as the sum of its `+=` contributions, in
source order; the reassignment of `awakeEvidence` is kept as the source's
four-way branch. -/

/-- The slice of `HeadNodDetector.update`'s result consumed by fusion. -/
structure NodObservation where
  isForwardNodding : Bool
  isBackwardTilting : Bool
  windowMax : ℚ
  windowMin : ℚ
deriving DecidableEq, Repr

/-- The posture tracker state consumed by fusion
(`latestPostureStateRef.current`, produced by `PostureTracker.update`).
Durations are in milliseconds as in the source. -/
structure PostureSnapshot where
  isPresent : Bool
  isSlouchingNow : Bool
  isSlouched : Bool
  slouchDuration : ℚ
  awayDuration : ℚ
  leanDirection : LeanDirection
  leanDuration : ℚ
  isLeaning : Bool
  bodyPresence : ℚ
deriving DecidableEq, Repr

/-- All per-frame signals feeding the evidence fusion in `handleLandmarks`.
`eyesClosedDuration` is the blink-filtered closed-eye time in seconds;
`landmarksStateNonNull` models `landmarks !== null` (the React state read in
the posture confidence-reduction guard); `posture` is `none` when no posture
reading has been produced yet. -/
structure FusionInputs where
  eyesClosedDuration : ℚ
  nod : NodObservation
  isTilted : Bool
  isYawning : Bool
  yawnCount : Nat
  isLookingAway : Bool
  lookAwayDuration : ℚ
  isAbnormalDistance : Bool
  posture : Option PostureSnapshot
  landmarksStateNonNull : Bool
deriving DecidableEq, Repr

/-- Sleeping-evidence accumulator before the presence discount and clamping:
the eyes-closed band (`>= 5s` branch of the chain), the backward-tilt bonus,
and the posture sleeping rules. -/
def sleepingPre (inp : FusionInputs) : ℚ :=
  let d := inp.eyesClosedDuration
  (if EYES_CLOSED_SLEEP_SEC ≤ d then 2 + min ((d - EYES_CLOSED_SLEEP_SEC) / 2) 1 else 0)
  + (if inp.nod.isBackwardTilting = true ∧ 4 ≤ d then 1/5 else 0)
  + (match inp.posture with
     | none => 0
     | some ps =>
         (if ps.leanDirection = .backward ∧ 5000 < ps.leanDuration ∧ 3 < d then 2/5 else 0)
       + (if ps.isPresent = false ∧ 10000 < ps.awayDuration then 1/2 else 0)
       + (if ps.isSlouched = true ∧ ps.leanDirection = .backward ∧ 4 < d then 3/10 else 0))

/-- Nodding-evidence accumulator before the presence discount and clamping. -/
def noddingPre (inp : FusionInputs) : ℚ :=
  let d := inp.eyesClosedDuration
  (if EYES_CLOSED_SLEEP_SEC ≤ d then 0
   else if EYES_CLOSED_NOD_SEC ≤ d then 3/2
   else if 2 ≤ d then 4/5
   else if 1 ≤ d then 3/10
   else 0)
  + (if inp.nod.isForwardNodding = true then 3/10 else 0)
  + (if HEAD_PITCH_THRESHOLD + 4 < inp.nod.windowMax then 1/4 else 0)
  + (if inp.nod.isBackwardTilting = true then 1/5 else 0)
  + (if inp.isYawning = true then 3/20 else 0)
  + (if isDrowsyYawnRate inp.yawnCount = true then 1/10 else 0)
  + (if inp.isLookingAway = true ∧ 5 < inp.lookAwayDuration then 3/20 else 0)
  + (if inp.isAbnormalDistance = true then 1/10 else 0)
  + (match inp.posture with
     | none => 0
     | some ps =>
         (if ps.isSlouched = true then
            (if 10000 < ps.slouchDuration then 3/10
             else if 5000 < ps.slouchDuration then 1/5
             else 0)
          else 0)
       + (if ps.leanDirection = .forward ∧ 3000 < ps.leanDuration ∧ 3/2 < d then 1/4 else 0)
       + (if ps.leanDirection = .backward ∧ 5000 < ps.leanDuration ∧ ps.leanDuration < 15000
          then 3/20 else 0)
       + (if ps.isLeaning = true ∧ inp.isYawning = true then 1/10 else 0))

/-- The awake accumulator value just before the eyes-closed reassignment
block: the 0.3 seed plus the look-away/tilt/nod/peak/yawn bonuses. -/
def awakeAcc (inp : FusionInputs) : ℚ :=
  3/10
  + (if inp.isLookingAway = true ∧ 5 < inp.lookAwayDuration then 0 else 1/20)
  + (if inp.isTilted = false then 1/10 else 0)
  + (if inp.nod.isForwardNodding = false ∧ inp.nod.isBackwardTilting = false then 1/5 else 0)
  + (if |inp.nod.windowMax| < HEAD_PITCH_THRESHOLD ∧ |inp.nod.windowMin| < HEAD_PITCH_BACK_THRESHOLD
     then 1/20 else 0)
  + (if inp.isYawning = false ∧ inp.yawnCount < 2 then 1/20 else 0)

/-- Awake-evidence accumulator before the presence discount and clamping:
the reassignment block ("Reduce awake evidence significantly when eyes are
closed") applied to `awakeAcc`, then the posture awake rules. -/
def awakePre (inp : FusionInputs) : ℚ :=
  let d := inp.eyesClosedDuration
  (if d < 1 then awakeAcc inp + 3/10
   else if d < 2 then awakeAcc inp + 1/20
   else if d < EYES_CLOSED_NOD_SEC then 0
   else 0)
  + (match inp.posture with
     | none => 0
     | some ps =>
         (if ps.isSlouched = false ∧ ps.isLeaning = false ∧ ps.isPresent = true then 1/4 else 0)
       + (if ps.isPresent = true ∧ 7/10 < ps.bodyPresence ∧ ps.isSlouched = false then 3/20 else 0)
       + (if ps.isSlouchingNow = false ∧ ps.slouchDuration = 0 ∧ ps.leanDirection = .neutral
          then 1/10 else 0))

/-- The uniform 20% confidence reduction: when a posture reading exists with
`bodyPresence < 0.5` and the `landmarks` state is non-null, every accumulator
is multiplied by 0.8. -/
def presenceDamp (inp : FusionInputs) (x : ℚ) : ℚ :=
  match inp.posture with
  | none => x
  | some ps => if ps.bodyPresence < 1/2 ∧ inp.landmarksStateNonNull = true then (4/5) * x else x

/-- Final clamped sleeping evidence: `Math.min(1, Math.max(0, s))`. -/
def sleepingScore (inp : FusionInputs) : ℚ := min 1 (max 0 (presenceDamp inp (sleepingPre inp)))

/-- Final clamped nodding evidence: `Math.min(1, Math.max(0, n))`. -/
def noddingScore (inp : FusionInputs) : ℚ := min 1 (max 0 (presenceDamp inp (noddingPre inp)))

/-- Final clamped awake evidence with its 0.05 floor:
`Math.min(1, Math.max(0.05, a))`. -/
def awakeScore (inp : FusionInputs) : ℚ := min 1 (max (1/20) (presenceDamp inp (awakePre inp)))

/-- Normalization of the clamped scores into probabilities
`(sleepingProb, noddingProb, awakeProb)`, guarding against a zero total as
the source does. -/
def fusionProbs (inp : FusionInputs) : ℚ × ℚ × ℚ :=
  let s := sleepingScore inp
  let n := noddingScore inp
  let a := awakeScore inp
  let totalEvidence := s + n + a
  (if 0 < totalEvidence then s / totalEvidence else 0,
   if 0 < totalEvidence then n / totalEvidence else 0,
   if 0 < totalEvidence then a / totalEvidence else 1)

lemma sleepingScore_nonneg (inp : FusionInputs) : 0 ≤ sleepingScore inp := by
  unfold sleepingScore
  exact le_min (by norm_num) (le_max_left _ _)

lemma sleepingScore_le_one (inp : FusionInputs) : sleepingScore inp ≤ 1 :=
  min_le_left _ _

lemma noddingScore_nonneg (inp : FusionInputs) : 0 ≤ noddingScore inp := by
  unfold noddingScore
  exact le_min (by norm_num) (le_max_left _ _)

lemma noddingScore_le_one (inp : FusionInputs) : noddingScore inp ≤ 1 :=
  min_le_left _ _

lemma awakeScore_ge_floor (inp : FusionInputs) : 1/20 ≤ awakeScore inp := by
  unfold awakeScore
  exact le_min (by norm_num) (le_trans (by norm_num) (le_max_left _ _))

lemma awakeScore_le_one (inp : FusionInputs) : awakeScore inp ≤ 1 :=
  min_le_left _ _

/-- C1. On every fused-classification frame, after clamping the three evidence
scores (awake floored at 0.05) and normalizing, the resulting
awake / noddingOff / sleeping probabilities each lie in [0, 1] and their sum
is exactly 1 (the model uses exact rational arithmetic, so the floating-point
epsilon of the spec disappears). -/
theorem fusion_probs_normalized_c1 (inp : FusionInputs) :
    0 ≤ (fusionProbs inp).1 ∧ (fusionProbs inp).1 ≤ 1 ∧
    0 ≤ (fusionProbs inp).2.1 ∧ (fusionProbs inp).2.1 ≤ 1 ∧
    0 ≤ (fusionProbs inp).2.2 ∧ (fusionProbs inp).2.2 ≤ 1 ∧
    (fusionProbs inp).1 + (fusionProbs inp).2.1 + (fusionProbs inp).2.2 = 1 := by
  have hs0 := sleepingScore_nonneg inp
  have hs1 := sleepingScore_le_one inp
  have hn0 := noddingScore_nonneg inp
  have hn1 := noddingScore_le_one inp
  have ha0 := awakeScore_ge_floor inp
  have ha1 := awakeScore_le_one inp
  have htot : 0 < sleepingScore inp + noddingScore inp + awakeScore inp := by linarith
  have hne : sleepingScore inp + noddingScore inp + awakeScore inp ≠ 0 := ne_of_gt htot
  unfold fusionProbs
  simp only [htot, if_pos]
  refine ⟨div_nonneg hs0 htot.le, ?_, div_nonneg hn0 htot.le, ?_,
    div_nonneg (by linarith) htot.le, ?_, ?_⟩
  · rw [div_le_one htot]; linarith
  · rw [div_le_one htot]; linarith
  · rw [div_le_one htot]; linarith
  · field_simp

/-! ## Record-update projection lemmas for `FusionInputs` -/

@[simp] lemma updateDur_eyesClosedDuration (inp : FusionInputs) (d : ℚ) :
    ({ inp with eyesClosedDuration := d } : FusionInputs).eyesClosedDuration = d := rfl

@[simp] lemma updateDur_nod (inp : FusionInputs) (d : ℚ) :
    ({ inp with eyesClosedDuration := d } : FusionInputs).nod = inp.nod := rfl

@[simp] lemma updateDur_isTilted (inp : FusionInputs) (d : ℚ) :
    ({ inp with eyesClosedDuration := d } : FusionInputs).isTilted = inp.isTilted := rfl

@[simp] lemma updateDur_isYawning (inp : FusionInputs) (d : ℚ) :
    ({ inp with eyesClosedDuration := d } : FusionInputs).isYawning = inp.isYawning := rfl

@[simp] lemma updateDur_yawnCount (inp : FusionInputs) (d : ℚ) :
    ({ inp with eyesClosedDuration := d } : FusionInputs).yawnCount = inp.yawnCount := rfl

@[simp] lemma updateDur_isLookingAway (inp : FusionInputs) (d : ℚ) :
    ({ inp with eyesClosedDuration := d } : FusionInputs).isLookingAway = inp.isLookingAway := rfl

@[simp] lemma updateDur_lookAwayDuration (inp : FusionInputs) (d : ℚ) :
    ({ inp with eyesClosedDuration := d } : FusionInputs).lookAwayDuration
      = inp.lookAwayDuration := rfl

@[simp] lemma updateDur_isAbnormalDistance (inp : FusionInputs) (d : ℚ) :
    ({ inp with eyesClosedDuration := d } : FusionInputs).isAbnormalDistance
      = inp.isAbnormalDistance := rfl

@[simp] lemma updateDur_posture (inp : FusionInputs) (d : ℚ) :
    ({ inp with eyesClosedDuration := d } : FusionInputs).posture = inp.posture := rfl

@[simp] lemma updateDur_landmarks (inp : FusionInputs) (d : ℚ) :
    ({ inp with eyesClosedDuration := d } : FusionInputs).landmarksStateNonNull
      = inp.landmarksStateNonNull := rfl

/-! ## Monotonicity of the evidence scores in the closed-eye duration -/

lemma ite_mono_of_imp {c1 c2 : Prop} [Decidable c1] [Decidable c2] {w : ℚ} (hw : 0 ≤ w)
    (himp : c1 → c2) : (if c1 then w else 0) ≤ (if c2 then w else 0) := by
  split_ifs with h1 h2
  · exact le_rfl
  · exact absurd (himp h1) h2
  · exact hw
  · exact le_rfl

lemma sleepBand_mono {d1 d2 : ℚ} (h : d1 ≤ d2) :
    (if EYES_CLOSED_SLEEP_SEC ≤ d1 then 2 + min ((d1 - EYES_CLOSED_SLEEP_SEC) / 2) 1 else 0)
      ≤ (if EYES_CLOSED_SLEEP_SEC ≤ d2 then 2 + min ((d2 - EYES_CLOSED_SLEEP_SEC) / 2) 1 else 0) := by
  unfold EYES_CLOSED_SLEEP_SEC
  have hm : min ((d1 - 5) / 2) 1 ≤ min ((d2 - 5) / 2) 1 := min_le_min (by linarith) le_rfl
  split_ifs with h1 h2
  · linarith
  · linarith
  · have : (0:ℚ) ≤ min ((d2 - 5) / 2) 1 := le_min (by linarith) (by norm_num)
    linarith
  · exact le_rfl

lemma sleepingPre_mono (inp : FusionInputs) {d1 d2 : ℚ} (h : d1 ≤ d2) :
    sleepingPre { inp with eyesClosedDuration := d1 }
      ≤ sleepingPre { inp with eyesClosedDuration := d2 } := by
  unfold sleepingPre
  simp only [updateDur_eyesClosedDuration, updateDur_nod, updateDur_posture]
  have hband := sleepBand_mono h
  have hbt : (if inp.nod.isBackwardTilting = true ∧ 4 ≤ d1 then (1:ℚ)/5 else 0)
      ≤ (if inp.nod.isBackwardTilting = true ∧ 4 ≤ d2 then (1:ℚ)/5 else 0) :=
    ite_mono_of_imp (by norm_num) (fun hc => ⟨hc.1, le_trans hc.2 h⟩)
  cases hp : inp.posture with
  | none =>
    simp only [hp]
    exact add_le_add (add_le_add hband hbt) le_rfl
  | some ps =>
    simp only [hp]
    have h1 : (if ps.leanDirection = .backward ∧ 5000 < ps.leanDuration ∧ 3 < d1
          then (2:ℚ)/5 else 0)
        ≤ (if ps.leanDirection = .backward ∧ 5000 < ps.leanDuration ∧ 3 < d2
          then (2:ℚ)/5 else 0) :=
      ite_mono_of_imp (by norm_num) (fun hc => ⟨hc.1, hc.2.1, lt_of_lt_of_le hc.2.2 h⟩)
    have h2 : (if ps.isSlouched = true ∧ ps.leanDirection = .backward ∧ 4 < d1
          then (3:ℚ)/10 else 0)
        ≤ (if ps.isSlouched = true ∧ ps.leanDirection = .backward ∧ 4 < d2
          then (3:ℚ)/10 else 0) :=
      ite_mono_of_imp (by norm_num) (fun hc => ⟨hc.1, hc.2.1, lt_of_lt_of_le hc.2.2 h⟩)
    exact add_le_add (add_le_add hband hbt) (add_le_add (add_le_add h1 le_rfl) h2)

lemma presenceDamp_mono (inp : FusionInputs) {x y : ℚ} (hxy : x ≤ y) :
    presenceDamp inp x ≤ presenceDamp inp y := by
  unfold presenceDamp
  cases hp : inp.posture with
  | none => simpa [hp] using hxy
  | some ps =>
    simp only [hp]
    split_ifs
    · linarith
    · exact hxy

lemma presenceDamp_update (inp : FusionInputs) (d x : ℚ) :
    presenceDamp { inp with eyesClosedDuration := d } x = presenceDamp inp x := rfl

lemma clamp01_mono {x y : ℚ} (hxy : x ≤ y) : min 1 (max 0 x) ≤ min 1 (max 0 y) :=
  min_le_min le_rfl (max_le_max le_rfl hxy)

lemma sleepingScore_mono (inp : FusionInputs) {d1 d2 : ℚ} (h : d1 ≤ d2) :
    sleepingScore { inp with eyesClosedDuration := d1 }
      ≤ sleepingScore { inp with eyesClosedDuration := d2 } := by
  unfold sleepingScore
  rw [presenceDamp_update, presenceDamp_update]
  exact clamp01_mono (presenceDamp_mono inp (sleepingPre_mono inp h))

/-- Closed-eye seconds from the consecutive closed-frame counter, with the
15-frame blink filter (`handleLandmarks`, "Convert frames to seconds"). -/
def closedSecOfFrames (closedFrames : Nat) : ℚ :=
  if MIN_CLOSED_FRAMES ≤ closedFrames
  then ((closedFrames : ℚ) - (MIN_CLOSED_FRAMES : ℚ)) / FPS else 0

lemma closedSecOfFrames_mono {f1 f2 : Nat} (h : f1 ≤ f2) :
    closedSecOfFrames f1 ≤ closedSecOfFrames f2 := by
  unfold closedSecOfFrames MIN_CLOSED_FRAMES FPS
  have hq : (f1 : ℚ) ≤ (f2 : ℚ) := by exact_mod_cast h
  by_cases h1 : 15 ≤ f1
  · have h2 : 15 ≤ f2 := le_trans h1 h
    rw [if_pos h1, if_pos h2]
    push_cast
    linarith
  · rw [if_neg h1]
    by_cases h2 : 15 ≤ f2
    · rw [if_pos h2]
      have h2q : (15 : ℚ) ≤ (f2 : ℚ) := by exact_mod_cast h2
      push_cast
      linarith
    · rw [if_neg h2]

/-- C6. Holding all other tracker and posture signals fixed, increasing the
consecutive closed-eye frame count (past the 15-frame blink filter) never
decreases the final clamped sleeping evidence computed for the frame. -/
theorem sleeping_evidence_mono_frames_c6 (inp : FusionInputs) (f1 f2 : Nat)
    (hblink : MIN_CLOSED_FRAMES ≤ f1) (h : f1 ≤ f2) :
    sleepingScore { inp with eyesClosedDuration := closedSecOfFrames f1 }
      ≤ sleepingScore { inp with eyesClosedDuration := closedSecOfFrames f2 } :=
  sleepingScore_mono inp (closedSecOfFrames_mono h)

/-- Fixed quiet fusion inputs used to instantiate hypothesised theorems. -/
def quietInputs : FusionInputs :=
  { eyesClosedDuration := 0,
    nod := { isForwardNodding := false, isBackwardTilting := false, windowMax := 0, windowMin := 0 },
    isTilted := false, isYawning := false, yawnCount := 0, isLookingAway := false,
    lookAwayDuration := 0, isAbnormalDistance := false, posture := none,
    landmarksStateNonNull := false }

/-- Witness for C6 at closed-frame counts 15 and 20. -/
theorem sleeping_evidence_mono_frames_c6_witness :
    MIN_CLOSED_FRAMES ≤ 15 ∧ 15 ≤ 20 ∧
    sleepingScore { quietInputs with eyesClosedDuration := closedSecOfFrames 15 }
      ≤ sleepingScore { quietInputs with eyesClosedDuration := closedSecOfFrames 20 } :=
  ⟨by norm_num [MIN_CLOSED_FRAMES], by norm_num,
    sleeping_evidence_mono_frames_c6 quietInputs 15 20 (by norm_num [MIN_CLOSED_FRAMES])
      (by norm_num)⟩

/-! ## Awake-evidence suppression in the closed-eye duration (C5) -/

lemma awakeAcc_update (inp : FusionInputs) (d : ℚ) :
    awakeAcc { inp with eyesClosedDuration := d } = awakeAcc inp := rfl

lemma awakeAcc_nonneg (inp : FusionInputs) : 0 ≤ awakeAcc inp := by
  unfold awakeAcc
  split_ifs <;> norm_num

lemma awakePre_anti (inp : FusionInputs) {d1 d2 : ℚ} (h : d1 ≤ d2) :
    awakePre { inp with eyesClosedDuration := d2 }
      ≤ awakePre { inp with eyesClosedDuration := d1 } := by
  unfold awakePre
  simp only [updateDur_eyesClosedDuration, updateDur_posture, awakeAcc_update]
  have hA := awakeAcc_nonneg inp
  refine add_le_add ?_ le_rfl
  split_ifs <;> linarith

lemma awakeScore_anti (inp : FusionInputs) {d1 d2 : ℚ} (h : d1 ≤ d2) :
    awakeScore { inp with eyesClosedDuration := d2 }
      ≤ awakeScore { inp with eyesClosedDuration := d1 } := by
  unfold awakeScore
  rw [presenceDamp_update, presenceDamp_update]
  exact min_le_min le_rfl (max_le_max le_rfl (presenceDamp_mono inp (awakePre_anti inp h)))

/-- C5 (amended). Holding all other signals fixed, the awake evidence score is
non-increasing as the closed-eye duration grows; and when no posture reading
is present, the raw awake evidence (before the 0.05 clamp floor) equals 0 for
every closed-eye duration past the nodding threshold. (The original claim's
"equals 0 regardless of any other signal" fails: posture-derived awake bonuses
are added after the eyes-closed reassignment, see the C5 counterexample.) -/
theorem awake_suppression_c5 (inp : FusionInputs) (d1 d2 : ℚ) (h : d1 ≤ d2) :
    awakeScore { inp with eyesClosedDuration := d2 }
        ≤ awakeScore { inp with eyesClosedDuration := d1 } ∧
    (inp.posture = none → ∀ d : ℚ, EYES_CLOSED_NOD_SEC < d →
        awakePre { inp with eyesClosedDuration := d } = 0) := by
  refine ⟨awakeScore_anti inp h, fun hp d hd => ?_⟩
  unfold awakePre
  simp only [updateDur_eyesClosedDuration, updateDur_posture, awakeAcc_update, hp]
  unfold EYES_CLOSED_NOD_SEC at hd
  have h1 : ¬ (d < 1) := by linarith
  have h2 : ¬ (d < 2) := by linarith
  have h3 : ¬ (d < EYES_CLOSED_NOD_SEC) := by unfold EYES_CLOSED_NOD_SEC; linarith
  rw [if_neg h1, if_neg h2, if_neg h3]
  norm_num

/-- An upright, attentive posture reading. -/
def c5Posture : PostureSnapshot :=
  { isPresent := true, isSlouchingNow := false, isSlouched := false, slouchDuration := 0,
    awayDuration := 0, leanDirection := .neutral, leanDuration := 0, isLeaning := false,
    bodyPresence := 4/5 }

/-- A frame with eyes closed for 4 seconds (past the 3.5s nodding threshold)
but a good posture reading. -/
def c5Inputs : FusionInputs :=
  { eyesClosedDuration := 4,
    nod := { isForwardNodding := false, isBackwardTilting := false, windowMax := 0, windowMin := 0 },
    isTilted := false, isYawning := false, yawnCount := 0, isLookingAway := false,
    lookAwayDuration := 0, isAbnormalDistance := false, posture := some c5Posture,
    landmarksStateNonNull := true }

/-- C5 counterexample. With eyes closed 4 s (beyond the 3.5 s nodding
threshold) and a good posture reading, the awake evidence is 1/2, not 0: the
posture awake bonuses are applied after the eyes-closed reassignment block. -/
theorem awake_not_zero_counterexample_c5 :
    EYES_CLOSED_NOD_SEC < c5Inputs.eyesClosedDuration ∧
    awakePre c5Inputs = 1/2 ∧ awakeScore c5Inputs = 1/2 := by
  refine ⟨by norm_num [EYES_CLOSED_NOD_SEC, c5Inputs], ?_, ?_⟩
  · norm_num [awakePre, awakeAcc, c5Inputs, c5Posture, EYES_CLOSED_NOD_SEC]
  · norm_num [awakeScore, presenceDamp, awakePre, awakeAcc, c5Inputs, c5Posture,
      EYES_CLOSED_NOD_SEC, min_def, max_def]

/-- Witness for C5 at durations 0 and 4. -/
theorem awake_suppression_c5_witness :
    (0:ℚ) ≤ 4 ∧
    (awakeScore { quietInputs with eyesClosedDuration := (4:ℚ) }
        ≤ awakeScore { quietInputs with eyesClosedDuration := (0:ℚ) } ∧
      (quietInputs.posture = none → ∀ d : ℚ, EYES_CLOSED_NOD_SEC < d →
        awakePre { quietInputs with eyesClosedDuration := d } = 0)) :=
  ⟨by norm_num, awake_suppression_c5 quietInputs 0 4 (by norm_num)⟩

/-! ## HeadNodDetector (headPitch.ts) -/

/-- Rolling pitch window length (~0.6 s at 30 FPS). -/
def HISTORY_SIZE : Nat := 18

/-- Degrees below the forward threshold before allowing re-trigger. -/
def FORWARD_HYSTERESIS : ℚ := 3

/-- Degrees inside the backward threshold before allowing re-trigger. -/
def BACKWARD_HYSTERESIS : ℚ := 3

/-- Mutable state of `HeadNodDetector`. -/
structure HeadNodState where
  pitchHistory : List ℚ
  nodCount : Nat
  wasForward : Bool
  wasBackward : Bool
deriving DecidableEq, Repr

/-- A fresh `HeadNodDetector`. -/
def headNodInit : HeadNodState :=
  { pitchHistory := [], nodCount := 0, wasForward := false, wasBackward := false }

/-- Push a pitch sample and keep only the most recent `HISTORY_SIZE` entries
(`push` followed by `shift` in the source). -/
def pushPitch (hist : List ℚ) (p : ℚ) : List ℚ :=
  let h := hist ++ [p]
  if HISTORY_SIZE < h.length then h.tail else h

/-- `Math.max(...list)` over a non-empty list; 0 as the (unused) empty value. -/
def listMax : List ℚ → ℚ
  | [] => 0
  | x :: xs => xs.foldl max x

/-- `Math.min(...list)` over a non-empty list; 0 as the (unused) empty value. -/
def listMin : List ℚ → ℚ
  | [] => 0
  | x :: xs => xs.foldl min x

/-- Return value of `HeadNodDetector.update`. -/
structure HeadNodResult where
  isForwardNodding : Bool
  isBackwardTilting : Bool
  nodCount : Nat
  avgPitch : ℚ
  instantaneousPitch : ℚ
  windowMax : ℚ
  windowMin : ℚ
deriving DecidableEq, Repr

/-- `HeadNodDetector.update`: push the adjusted pitch, take windowed extrema,
flag forward nod / backward tilt, count rising edges, and maintain the
`wasForward` / `wasBackward` re-arm latches with their 3-degree hysteresis. -/
def headNodUpdate (st : HeadNodState) (adjustedPitch forwardThreshold backwardThreshold : ℚ) :
    HeadNodResult × HeadNodState :=
  let hist := pushPitch st.pitchHistory adjustedPitch
  let windowMax := listMax hist
  let windowMin := listMin hist
  let nodCount :=
    if forwardThreshold < windowMax ∧ st.wasForward = false then st.nodCount + 1 else st.nodCount
  let wasForward :=
    if forwardThreshold < windowMax ∧ st.wasForward = false then true
    else if ¬ (forwardThreshold < windowMax) ∧ windowMax < forwardThreshold - FORWARD_HYSTERESIS
    then false
    else st.wasForward
  let wasBackward :=
    if windowMin < -backwardThreshold ∧ st.wasBackward = false then true
    else if ¬ (windowMin < -backwardThreshold) ∧ -(backwardThreshold - BACKWARD_HYSTERESIS) < windowMin
    then false
    else st.wasBackward
  ({ isForwardNodding := decide (forwardThreshold < windowMax),
     isBackwardTilting := decide (windowMin < -backwardThreshold),
     nodCount := nodCount,
     avgPitch := hist.sum / hist.length,
     instantaneousPitch := adjustedPitch,
     windowMax := windowMax,
     windowMin := windowMin },
   { pitchHistory := hist, nodCount := nodCount, wasForward := wasForward,
     wasBackward := wasBackward })

lemma le_foldl_max (l : List ℚ) (x : ℚ) : x ≤ l.foldl max x := by
  induction l generalizing x with
  | nil => exact le_rfl
  | cons y ys ih => exact le_trans (le_max_left x y) (ih (max x y))

lemma mem_le_foldl_max {a : ℚ} (l : List ℚ) (x : ℚ) (ha : a ∈ l) : a ≤ l.foldl max x := by
  induction l generalizing x with
  | nil => cases ha
  | cons y ys ih =>
    rcases List.mem_cons.mp ha with rfl | hy
    · exact le_trans (le_max_right x a) (le_foldl_max ys _)
    · exact ih _ hy

lemma mem_le_listMax {a : ℚ} {l : List ℚ} (ha : a ∈ l) : a ≤ listMax l := by
  cases l with
  | nil => cases ha
  | cons x xs =>
    rcases List.mem_cons.mp ha with rfl | hx
    · exact le_foldl_max xs a
    · exact mem_le_foldl_max xs x hx

lemma foldl_min_le (l : List ℚ) (x : ℚ) : l.foldl min x ≤ x := by
  induction l generalizing x with
  | nil => exact le_rfl
  | cons y ys ih => exact le_trans (ih (min x y)) (min_le_left x y)

lemma foldl_min_le_mem {a : ℚ} (l : List ℚ) (x : ℚ) (ha : a ∈ l) : l.foldl min x ≤ a := by
  induction l generalizing x with
  | nil => cases ha
  | cons y ys ih =>
    rcases List.mem_cons.mp ha with rfl | hy
    · exact le_trans (foldl_min_le ys _) (min_le_right x a)
    · exact ih _ hy

lemma listMin_le_mem {a : ℚ} {l : List ℚ} (ha : a ∈ l) : listMin l ≤ a := by
  cases l with
  | nil => cases ha
  | cons x xs =>
    rcases List.mem_cons.mp ha with rfl | hx
    · exact foldl_min_le xs a
    · exact foldl_min_le_mem xs x hx

/-- C7. For the head-nod detector, a single frame whose adjusted pitch dips
below the forward (resp. backward) threshold does not clear an
already-sustained nod (resp. tilt) latch — as long as the retained window
still holds a sample beyond the threshold — and clearing the latch requires
the windowed extremum to cross the threshold minus the 3-degree hysteresis
margin. -/
theorem nod_hysteresis_c7 (st : HeadNodState) (p thrF thrB : ℚ)
    (hF : st.wasForward = true) (hB : st.wasBackward = true) :
    ((∃ q ∈ pushPitch st.pitchHistory p, thrF < q) →
        (headNodUpdate st p thrF thrB).2.wasForward = true) ∧
    ((headNodUpdate st p thrF thrB).2.wasForward = false →
        listMax (pushPitch st.pitchHistory p) < thrF - FORWARD_HYSTERESIS) ∧
    ((∃ q ∈ pushPitch st.pitchHistory p, q < -thrB) →
        (headNodUpdate st p thrF thrB).2.wasBackward = true) ∧
    ((headNodUpdate st p thrF thrB).2.wasBackward = false →
        -(thrB - BACKWARD_HYSTERESIS) < listMin (pushPitch st.pitchHistory p)) := by
  unfold headNodUpdate
  simp only [hF]
  refine ⟨?_, ?_, ?_, ?_⟩
  · rintro ⟨q, hq, hqgt⟩
    have hM : thrF < listMax (pushPitch st.pitchHistory p) :=
      lt_of_lt_of_le hqgt (mem_le_listMax hq)
    simp [hM]
  · intro hcleared
    by_cases hM : thrF < listMax (pushPitch st.pitchHistory p)
    · simp [hM] at hcleared
    · by_cases hHyst : listMax (pushPitch st.pitchHistory p) < thrF - FORWARD_HYSTERESIS
      · exact hHyst
      · simp [hM, hHyst] at hcleared
  · rintro ⟨q, hq, hqlt⟩
    have hm : listMin (pushPitch st.pitchHistory p) < -thrB :=
      lt_of_le_of_lt (listMin_le_mem hq) hqlt
    simp [hm, hB]
  · intro hcleared
    by_cases hm : listMin (pushPitch st.pitchHistory p) < -thrB
    · simp [hm, hB] at hcleared
    · by_cases hHyst : -(thrB - BACKWARD_HYSTERESIS) < listMin (pushPitch st.pitchHistory p)
      · exact hHyst
      · simp [hm, hB] at hcleared
        linarith

/-- A detector state with sustained forward and backward latches and recent
extreme pitches in the window. -/
def c7State : HeadNodState :=
  { pitchHistory := [20, -20], nodCount := 1, wasForward := true, wasBackward := true }

/-- Witness for C7: a single dip frame of pitch 0 at thresholds 10 / 12. -/
theorem nod_hysteresis_c7_witness :
    c7State.wasForward = true ∧ c7State.wasBackward = true ∧
    (((∃ q ∈ pushPitch c7State.pitchHistory 0, (10:ℚ) < q) →
        (headNodUpdate c7State 0 10 12).2.wasForward = true) ∧
    ((headNodUpdate c7State 0 10 12).2.wasForward = false →
        listMax (pushPitch c7State.pitchHistory 0) < 10 - FORWARD_HYSTERESIS) ∧
    ((∃ q ∈ pushPitch c7State.pitchHistory 0, q < -(12:ℚ)) →
        (headNodUpdate c7State 0 10 12).2.wasBackward = true) ∧
    ((headNodUpdate c7State 0 10 12).2.wasBackward = false →
        -((12:ℚ) - BACKWARD_HYSTERESIS) < listMin (pushPitch c7State.pitchHistory 0))) :=
  ⟨rfl, rfl, nod_hysteresis_c7 c7State 0 10 12 rfl rfl⟩

/-! ## YawnDetector (yawning.ts) -/

/-- MAR smoothing window: last 10 frames. -/
def YAWN_HISTORY_SIZE : Nat := 10

/-- Mouth considered wide open above this smoothed MAR. -/
def MAR_THRESHOLD : ℚ := 3/5

/-- Minimum episode length (ms) to count as a yawn. -/
def MIN_YAWN_DURATION_MS : ℚ := 500

/-- Maximum episode length (ms) to count as a yawn. -/
def MAX_YAWN_DURATION_MS : ℚ := 3000

/-- One-minute rolling window for yawn events. -/
def YAWN_WINDOW_MS : ℚ := 60000

/-- Mutable state of `YawnDetector`. `yawnCount` is the cumulative counter the
source increments and returns; `yawnTimes` is its rolling 60-second event
window. -/
structure YawnDetectorState where
  marHistory : List ℚ
  yawnCount : Nat
  yawnTimes : List ℚ
  isCurrentlyYawning : Bool
  yawnStartTime : Option ℚ
deriving DecidableEq, Repr

/-- A fresh `YawnDetector`. -/
def yawnInit : YawnDetectorState :=
  { marHistory := [], yawnCount := 0, yawnTimes := [], isCurrentlyYawning := false,
    yawnStartTime := none }

/-- JavaScript truthiness of the numeric-or-null `yawnStartTime` field
(both `null` and `0` are falsy). -/
def startTruthy : Option ℚ → Bool
  | none => false
  | some t => decide (t ≠ 0)

/-- `YawnDetector.update` with the wall-clock time (`Date.now()`) passed
explicitly: smooth MAR over the last 10 frames, open/close the current yawn
episode, count episodes of 0.5–3 s, and prune `yawnTimes` to the last 60 s. -/
def yawnUpdate (now mar : ℚ) (st : YawnDetectorState) : YawnDetectorState :=
  let hist0 := st.marHistory ++ [mar]
  let hist := if YAWN_HISTORY_SIZE < hist0.length then hist0.tail else hist0
  let avgMAR := hist.sum / hist.length
  let st1 :=
    if MAR_THRESHOLD < avgMAR ∧ st.isCurrentlyYawning = false then
      { st with isCurrentlyYawning := true, yawnStartTime := some now }
    else if ¬ (MAR_THRESHOLD < avgMAR) ∧ st.isCurrentlyYawning = true ∧
        startTruthy st.yawnStartTime = true then
      let yawnDuration := now - st.yawnStartTime.getD 0
      let st2 :=
        if MIN_YAWN_DURATION_MS ≤ yawnDuration ∧ yawnDuration ≤ MAX_YAWN_DURATION_MS then
          { st with yawnCount := st.yawnCount + 1, yawnTimes := st.yawnTimes ++ [now] }
        else st
      { st2 with isCurrentlyYawning := false, yawnStartTime := none }
    else st
  { st1 with marHistory := hist,
             yawnTimes := st1.yawnTimes.filter (fun time => decide (now - time ≤ YAWN_WINDOW_MS)) }

/-- Five frames: one 1 s yawn ending at t = 101 s, then a second 1 s yawn
ending at t = 302 s — more than three minutes later. -/
def c9Trace : List (ℚ × ℚ) :=
  [(100000, 9/10), (101000, 0), (300000, 9/10), (301000, 9/10), (302000, 0)]

/-- The detector state after running the C9 trace. -/
def c9Final : YawnDetectorState :=
  c9Trace.foldl (fun s e => yawnUpdate e.1 e.2 s) yawnInit

lemma c9_step1 : yawnUpdate 100000 (9/10) yawnInit =
    { marHistory := [9/10], yawnCount := 0, yawnTimes := [], isCurrentlyYawning := true,
      yawnStartTime := some 100000 } := by
  norm_num [yawnUpdate, yawnInit, MAR_THRESHOLD, YAWN_HISTORY_SIZE, startTruthy, YAWN_WINDOW_MS,
    MIN_YAWN_DURATION_MS, MAX_YAWN_DURATION_MS]

lemma c9_step2 : yawnUpdate 101000 0
    { marHistory := [9/10], yawnCount := 0, yawnTimes := [], isCurrentlyYawning := true,
      yawnStartTime := some 100000 } =
    { marHistory := [9/10, 0], yawnCount := 1, yawnTimes := [101000], isCurrentlyYawning := false,
      yawnStartTime := none } := by
  norm_num [yawnUpdate, MAR_THRESHOLD, YAWN_HISTORY_SIZE, startTruthy, YAWN_WINDOW_MS,
    MIN_YAWN_DURATION_MS, MAX_YAWN_DURATION_MS, List.filter]

lemma c9_step3 : yawnUpdate 300000 (9/10)
    { marHistory := [9/10, 0], yawnCount := 1, yawnTimes := [101000], isCurrentlyYawning := false,
      yawnStartTime := none } =
    { marHistory := [9/10, 0, 9/10], yawnCount := 1, yawnTimes := [], isCurrentlyYawning := false,
      yawnStartTime := none } := by
  norm_num [yawnUpdate, MAR_THRESHOLD, YAWN_HISTORY_SIZE, startTruthy, YAWN_WINDOW_MS,
    MIN_YAWN_DURATION_MS, MAX_YAWN_DURATION_MS, List.filter]

lemma c9_step4 : yawnUpdate 301000 (9/10)
    { marHistory := [9/10, 0, 9/10], yawnCount := 1, yawnTimes := [], isCurrentlyYawning := false,
      yawnStartTime := none } =
    { marHistory := [9/10, 0, 9/10, 9/10], yawnCount := 1, yawnTimes := [],
      isCurrentlyYawning := true, yawnStartTime := some 301000 } := by
  norm_num [yawnUpdate, MAR_THRESHOLD, YAWN_HISTORY_SIZE, startTruthy, YAWN_WINDOW_MS,
    MIN_YAWN_DURATION_MS, MAX_YAWN_DURATION_MS, List.filter]

lemma c9_step5 : yawnUpdate 302000 0
    { marHistory := [9/10, 0, 9/10, 9/10], yawnCount := 1, yawnTimes := [],
      isCurrentlyYawning := true, yawnStartTime := some 301000 } =
    { marHistory := [9/10, 0, 9/10, 9/10, 0], yawnCount := 2, yawnTimes := [302000],
      isCurrentlyYawning := false, yawnStartTime := none } := by
  norm_num [yawnUpdate, MAR_THRESHOLD, YAWN_HISTORY_SIZE, startTruthy, YAWN_WINDOW_MS,
    MIN_YAWN_DURATION_MS, MAX_YAWN_DURATION_MS, List.filter]

lemma c9Final_eq : c9Final =
    { marHistory := [9/10, 0, 9/10, 9/10, 0], yawnCount := 2, yawnTimes := [302000],
      isCurrentlyYawning := false, yawnStartTime := none } := by
  unfold c9Final c9Trace
  simp only [List.foldl_cons, List.foldl_nil]
  rw [c9_step1, c9_step2, c9_step3, c9_step4, c9_step5]

/-- C9. The drowsy-yawning criterion the fusion engine consumes
(`isDrowsyYawnRate(yawnCount)`) fires on the cumulative session yawn counter,
not on the rolling 60-second `yawnTimes` window: after two 1-second yawns
separated by more than three minutes, the criterion holds although only one
yawn lies in the rolling window. The maintained-but-unread `yawnTimes`
window and the source's own doc comments ("≥2 yawns per minute") show the
windowed rate was the intent, so this is a code bug. -/
theorem yawn_window_bug_c9 :
    c9Final.yawnCount = 2 ∧ isDrowsyYawnRate c9Final.yawnCount = true ∧
    c9Final.yawnTimes.length = 1 := by
  rw [c9Final_eq]
  refine ⟨rfl, ?_, rfl⟩
  norm_num [isDrowsyYawnRate]

/-! ## JavaScript string operations used by the acknowledgment protocol -/

/-- JavaScript `String.prototype.trim`: strip leading and trailing
whitespace. -/
def trimString (s : String) : String :=
  ⟨((s.data.dropWhile Char.isWhitespace).reverse.dropWhile Char.isWhitespace).reverse⟩

/-- JavaScript `String.prototype.toUpperCase` (the answers involved are
ASCII). -/
def upperString (s : String) : String := ⟨s.data.map Char.toUpper⟩

/-- JS truthiness of a nullable string (`null` and `""` are falsy). -/
def strTruthy : Option String → Bool
  | none => false
  | some s => decide (s ≠ "")

/-! ## Alarm library (useAttentionDetector.ts `createAlarmLibrary`) -/

/-- Static alarm definition: id, message, level. -/
structure AlarmDefinition where
  id : String
  message : String
  level : AlarmLevel
deriving DecidableEq, Repr

/-- An active alarm instance. -/
structure AttentionAlarm where
  id : String
  message : String
  level : AlarmLevel
  triggeredAt : ℚ
deriving DecidableEq, Repr

/-- Base nodding-tier messages. -/
def BASE_NODDING_MESSAGES : List String :=
  ["Time to stretch your neck", "Give your eyes a quick reset",
   "Take a deep breath and refocus", "Roll your shoulders back",
   "Straighten posture and re-engage", "Blink hard three times",
   "Sip some water now", "Shift your gaze to the horizon",
   "Stand up for a brief walk", "Adjust your seat position"]

/-- Base sleeping-tier messages. -/
def BASE_SLEEPING_MESSAGES : List String :=
  ["Wake up immediately", "Stand up and move now", "Splash water on your face",
   "Take a 10-minute break", "Call a friend for a reset", "Do a quick physical check-in",
   "Walk around the room", "Step outside for fresh air", "Play energizing music",
   "Review your task list aloud"]

/-- `String(n).padStart(2, "0")` for the indices 1..40 used here. -/
def pad2 (n : Nat) : String := if n < 10 then "0" ++ toString n else toString n

/-- The i-th nodding alarm definition (level `warning`). -/
def noddingAlarmDef (i : Nat) : AlarmDefinition :=
  { id := "nodding-" ++ toString (i + 1),
    message := "Nodding Alarm " ++ pad2 (i + 1) ++ ": "
      ++ BASE_NODDING_MESSAGES.getD (i % BASE_NODDING_MESSAGES.length) ""
      ++ " (" ++ toString (i + 1) ++ ")",
    level := .warning }

/-- The i-th sleeping alarm definition (level `critical`). -/
def sleepingAlarmDef (i : Nat) : AlarmDefinition :=
  { id := "sleeping-" ++ toString (i + 1),
    message := "Sleep Alarm " ++ pad2 (i + 1) ++ ": "
      ++ BASE_SLEEPING_MESSAGES.getD (i % BASE_SLEEPING_MESSAGES.length) ""
      ++ " (" ++ toString (i + 1) ++ ")",
    level := .critical }

/-- 40-entry nodding alarm library. -/
def ALARM_LIBRARY_NODDING : List AlarmDefinition := (List.range 40).map noddingAlarmDef

/-- 40-entry sleeping alarm library. -/
def ALARM_LIBRARY_SLEEPING : List AlarmDefinition := (List.range 40).map sleepingAlarmDef

/-- `getAlarmBatch`: draw `count` alarms round-robin from `source` starting at
`cursor`; returns the batch and the advanced cursor. -/
def getAlarmBatch (source : List AlarmDefinition) (cursor count : Nat) (timestamp : ℚ) :
    List AttentionAlarm × Nat :=
  ((List.range count).map fun i =>
      let d := source.getD ((cursor + i) % source.length)
        { id := "", message := "", level := .warning }
      { id := d.id, message := d.message, level := d.level, triggeredAt := timestamp },
   (cursor + count) % source.length)

lemma sleepingLib_length : ALARM_LIBRARY_SLEEPING.length = 40 := by
  simp [ALARM_LIBRARY_SLEEPING]

lemma sleepingLib_getD_level (k : Nat) (hk : k < 40) (d : AlarmDefinition) :
    (ALARM_LIBRARY_SLEEPING.getD k d).level = AlarmLevel.critical := by
  unfold ALARM_LIBRARY_SLEEPING
  rw [List.getD_eq_getElem _ _ (by simpa using hk)]
  simp [sleepingAlarmDef]

lemma getAlarmBatch_sleeping_length (cursor : Nat) (t : ℚ) :
    (getAlarmBatch ALARM_LIBRARY_SLEEPING cursor 5 t).1.length = 5 := by
  simp [getAlarmBatch]

lemma getAlarmBatch_sleeping_critical (cursor : Nat) (t : ℚ) :
    ∀ a ∈ (getAlarmBatch ALARM_LIBRARY_SLEEPING cursor 5 t).1, a.level = AlarmLevel.critical := by
  intro a ha
  simp only [getAlarmBatch, List.mem_map, List.mem_range] at ha
  obtain ⟨i, _, rfl⟩ := ha
  have hmod : (cursor + i) % ALARM_LIBRARY_SLEEPING.length < 40 := by
    rw [sleepingLib_length]
    exact Nat.mod_lt _ (by norm_num)
  exact sleepingLib_getD_level _ hmod _

/-! ## Challenges (useAttentionDetector.ts `createChallenge` and friends) -/

/-- The values the source draws from `Math.random()`, supplied as an oracle:
the math-or-trivia coin, the uniform challenge-type pick, the three math
operands (`a`, `b` in 10..99 and `c` in 1..9 in the source), the generated
alarm phrase (`generateAlarmPhrase`), and the trivia-bank draw
(`generateTriviaChallenge`). -/
structure Rng where
  coin : Bool
  typeChoice : Fin 3
  mathA : Nat
  mathB : Nat
  mathC : Nat
  phraseText : String
  triviaPrompt : String
  triviaAnswer : String

/-- Result of `createChallenge`. -/
structure ChallengeData where
  ctype : ChallengeType
  phrase : Option String
  prompt : Option String
  answer : Option String
deriving DecidableEq, Repr

/-- `generateMathChallenge`: prompt `Solve: a + b - c = ?`, answer
`String(a + b - c)`. -/
def generateMathChallenge (rng : Rng) : String × String :=
  ("Solve: " ++ toString rng.mathA ++ " + " ++ toString rng.mathB ++ " - "
      ++ toString rng.mathC ++ " = ?",
   toString ((rng.mathA : Int) + (rng.mathB : Int) - (rng.mathC : Int)))

/-- `createChallenge`: use the preferred type when given, otherwise the
uniformly random pick from the oracle. -/
def createChallenge (preferred : Option ChallengeType) (rng : Rng) : ChallengeData :=
  let chosen :=
    preferred.getD ([ChallengeType.phrase, .math, .trivia].getD rng.typeChoice.val .phrase)
  match chosen with
  | .math =>
    let math := generateMathChallenge rng
    { ctype := .math, phrase := none, prompt := some math.1, answer := some math.2 }
  | .trivia =>
    { ctype := .trivia, phrase := none, prompt := some rng.triviaPrompt,
      answer := some rng.triviaAnswer }
  | .phrase =>
    { ctype := .phrase, phrase := some rng.phraseText, prompt := none, answer := none }

/-! ## Detector escalation state (the hook refs and React state) -/

/-- Per-user calibration baselines. -/
structure CalibrationBaselines where
  pitch : ℚ
  ear : ℚ
  tilt : ℚ
  faceWidth : ℚ
deriving DecidableEq, Repr

/-- The escalation-relevant mutable state of `useAttentionDetector`: the
alarm / acknowledgment refs, the absence-countdown state, the calibration
accumulator and the round-robin alarm cursors. `absenceAlarmFired` is a
ghost counter incremented exactly when the absence-countdown branch raises
its alarm, used to state the one-way-latch property. -/
structure DetectorState where
  missingFaceFrames : Nat
  eyesClosedSec : ℚ
  absentStartTime : Option ℚ
  absentCountdown : Option ℚ
  isAbsenceAlarmArmed : Bool
  requireAck : Bool
  activeAlarms : List AttentionAlarm
  alarmPhrase : Option String
  challengeType : ChallengeType
  challengePrompt : Option String
  challengeAnswer : Option String
  lastAlarmState : AttentionState
  latestState : AttentionState
  state : AttentionState
  confidence : ℚ
  collecting : Bool
  calibStartTimestamp : Option ℚ
  pitchSamples : List ℚ
  earSamples : List ℚ
  tiltSamples : List ℚ
  faceWidthSamples : List ℚ
  calibrationProgress : ℚ
  baselines : Option CalibrationBaselines
  cursorNodding : Nat
  cursorSleeping : Nat
  absenceAlarmFired : Nat
deriving DecidableEq, Repr

/-- `resetAlarmState`: clear alarms, phrase, acknowledgment requirement and
challenge; reset the last alarm state to `awake`. -/
def resetAlarmState (st : DetectorState) : DetectorState :=
  { st with activeAlarms := [], alarmPhrase := none, requireAck := false,
            lastAlarmState := .awake, challengeType := .phrase, challengePrompt := none,
            challengeAnswer := none }

/-- `disarmAbsenceAlarm`: one-way disarm of the absence countdown. -/
def disarmAbsenceAlarm (st : DetectorState) : DetectorState :=
  { st with isAbsenceAlarmArmed := false, absentCountdown := none, absentStartTime := none }

/-- `assignNewChallenge`: create a challenge and store it — the phrase slot
for non-empty phrase challenges, the prompt/answer slots otherwise. -/
def assignNewChallenge (preferred : Option ChallengeType) (rng : Rng) (st : DetectorState) :
    DetectorState :=
  let challenge := createChallenge preferred rng
  if challenge.ctype = .phrase ∧ strTruthy challenge.phrase = true then
    { st with alarmPhrase := challenge.phrase, challengeType := .phrase,
              challengePrompt := none, challengeAnswer := none }
  else
    { st with alarmPhrase := none, challengeType := challenge.ctype,
              challengePrompt := challenge.prompt, challengeAnswer := challenge.answer }

/-- `silenceAlarm`: with no acknowledgment outstanding, reset and accept any
input; otherwise accept only in fused state `awake` with a matching answer —
phrase exactly, math against the trimmed input, trivia against the trimmed
input case-insensitively (empty stored answers never match, mirroring the
source's JS truthiness guards). Returns the accept flag and the new state. -/
def silenceAlarm (st : DetectorState) (input : String) : Bool × DetectorState :=
  if st.requireAck = false then (true, resetAlarmState st)
  else if ¬ (st.latestState = .awake) then (false, st)
  else
    match st.challengeType with
    | .phrase =>
      match st.alarmPhrase with
      | none => (false, st)
      | some ph => if ph = "" ∨ input ≠ ph then (false, st) else (true, resetAlarmState st)
    | .math =>
      match st.challengeAnswer with
      | none => (false, st)
      | some ans =>
        if ans = "" ∨ trimString input ≠ ans then (false, st) else (true, resetAlarmState st)
    | .trivia =>
      match st.challengeAnswer with
      | none => (false, st)
      | some ans =>
        if ans = "" ∨ upperString (trimString input) ≠ upperString ans then (false, st)
        else (true, resetAlarmState st)

/-- A quiescent detector state (fresh session after calibration, no alarms). -/
def baseDetectorState : DetectorState :=
  { missingFaceFrames := 0, eyesClosedSec := 0, absentStartTime := none, absentCountdown := none,
    isAbsenceAlarmArmed := true, requireAck := false, activeAlarms := [], alarmPhrase := none,
    challengeType := .phrase, challengePrompt := none, challengeAnswer := none,
    lastAlarmState := .awake, latestState := .awake, state := .awake, confidence := 0,
    collecting := false, calibStartTimestamp := none, pitchSamples := [], earSamples := [],
    tiltSamples := [], faceWidthSamples := [], calibrationProgress := 0, baselines := none,
    cursorNodding := 0, cursorSleeping := 0, absenceAlarmFired := 0 }

/-- C10. If no acknowledgment is currently required, `silenceAlarm` returns
true for every input string — without consulting the fused state or any
challenge answer — and as a side effect clears all active alarms, the alarm
phrase and the challenge. -/
theorem silence_no_ack_c10 (st : DetectorState) (input : String)
    (h : st.requireAck = false) :
    (silenceAlarm st input).1 = true ∧
    (silenceAlarm st input).2 = resetAlarmState st ∧
    (silenceAlarm st input).2.activeAlarms = [] ∧
    (silenceAlarm st input).2.alarmPhrase = none ∧
    (silenceAlarm st input).2.challengePrompt = none ∧
    (silenceAlarm st input).2.challengeAnswer = none ∧
    (silenceAlarm st input).2.requireAck = false := by
  unfold silenceAlarm
  rw [if_pos h]
  exact ⟨rfl, rfl, rfl, rfl, rfl, rfl, rfl⟩

/-- Witness for C10 on the quiescent state and an arbitrary input. -/
theorem silence_no_ack_c10_witness :
    baseDetectorState.requireAck = false ∧
    ((silenceAlarm baseDetectorState "anything").1 = true ∧
     (silenceAlarm baseDetectorState "anything").2 = resetAlarmState baseDetectorState ∧
     (silenceAlarm baseDetectorState "anything").2.activeAlarms = [] ∧
     (silenceAlarm baseDetectorState "anything").2.alarmPhrase = none ∧
     (silenceAlarm baseDetectorState "anything").2.challengePrompt = none ∧
     (silenceAlarm baseDetectorState "anything").2.challengeAnswer = none ∧
     (silenceAlarm baseDetectorState "anything").2.requireAck = false) :=
  ⟨rfl, silence_no_ack_c10 baseDetectorState "anything" rfl⟩

/-! ## C2: acknowledgment matching -/

/-- The acknowledgment-matching predicate, stated independently of
`silenceAlarm`'s control flow: phrase answers must equal the input exactly,
math answers must equal the whitespace-trimmed input exactly, trivia answers
match the trimmed input case-insensitively; missing or empty stored answers
never match. -/
def answerMatches (st : DetectorState) (input : String) : Prop :=
  match st.challengeType with
  | .phrase => ∃ ph, st.alarmPhrase = some ph ∧ ph ≠ "" ∧ input = ph
  | .math => ∃ ans, st.challengeAnswer = some ans ∧ ans ≠ "" ∧ trimString input = ans
  | .trivia => ∃ ans, st.challengeAnswer = some ans ∧ ans ≠ "" ∧
      upperString (trimString input) = upperString ans

/-- C2 (amended). When an acknowledgment is outstanding, `silenceAlarm`
returns true iff the current fused state equals `awake` and the input matches
the active challenge answer — exactly for phrase challenges, exactly after
trimming surrounding whitespace for math challenges, and case-insensitively
after trimming for trivia challenges — and on success it clears all active
alarms, the phrase and the challenge and resets the escalation state to
quiet. (The original claim's character-for-character requirement for math
fails because the source trims the input first; see the C2 counterexample.) -/
theorem silence_ack_c2 (st : DetectorState) (input : String) (hack : st.requireAck = true) :
    ((silenceAlarm st input).1 = true ↔
      (st.latestState = AttentionState.awake ∧ answerMatches st input)) ∧
    ((silenceAlarm st input).1 = true →
      (silenceAlarm st input).2.activeAlarms = [] ∧
      (silenceAlarm st input).2.alarmPhrase = none ∧
      (silenceAlarm st input).2.challengePrompt = none ∧
      (silenceAlarm st input).2.challengeAnswer = none ∧
      (silenceAlarm st input).2.requireAck = false ∧
      (silenceAlarm st input).2.lastAlarmState = AttentionState.awake) := by
  unfold silenceAlarm answerMatches
  rw [if_neg (by simp [hack])]
  by_cases hst : st.latestState = AttentionState.awake
  · rw [if_neg (not_not_intro hst)]
    cases hct : st.challengeType with
    | phrase =>
      cases hph : st.alarmPhrase with
      | none => simp [hst]
      | some ph =>
        dsimp only
        by_cases hcond : ph = "" ∨ input ≠ ph
        · rw [if_pos hcond]
          refine ⟨?_, fun hfalse => by simp at hfalse⟩
          simp only [hst, true_and, Option.some.injEq]
          constructor
          · intro hfalse
            simp at hfalse
          · rintro ⟨ph2, rfl, hne, hinp⟩
            rcases hcond with h1 | h1
            · exact absurd h1 hne
            · exact absurd hinp h1
        · rw [if_neg hcond]
          push_neg at hcond
          refine ⟨?_, fun _ => ⟨rfl, rfl, rfl, rfl, rfl, rfl⟩⟩
          simp only [hst, true_and, Option.some.injEq]
          exact ⟨fun _ => ⟨ph, rfl, hcond.1, hcond.2⟩, fun _ => trivial⟩
    | math =>
      cases hans : st.challengeAnswer with
      | none => simp [hst]
      | some ans =>
        dsimp only
        by_cases hcond : ans = "" ∨ trimString input ≠ ans
        · rw [if_pos hcond]
          refine ⟨?_, fun hfalse => by simp at hfalse⟩
          simp only [hst, true_and, Option.some.injEq]
          constructor
          · intro hfalse
            simp at hfalse
          · rintro ⟨a2, rfl, hne, heq⟩
            rcases hcond with h1 | h1
            · exact absurd h1 hne
            · exact absurd heq h1
        · rw [if_neg hcond]
          push_neg at hcond
          refine ⟨?_, fun _ => ⟨rfl, rfl, rfl, rfl, rfl, rfl⟩⟩
          simp only [hst, true_and, Option.some.injEq]
          exact ⟨fun _ => ⟨ans, rfl, hcond.1, hcond.2⟩, fun _ => trivial⟩
    | trivia =>
      cases hans : st.challengeAnswer with
      | none => simp [hst]
      | some ans =>
        dsimp only
        by_cases hcond : ans = "" ∨ upperString (trimString input) ≠ upperString ans
        · rw [if_pos hcond]
          refine ⟨?_, fun hfalse => by simp at hfalse⟩
          simp only [hst, true_and, Option.some.injEq]
          constructor
          · intro hfalse
            simp at hfalse
          · rintro ⟨a2, rfl, hne, heq⟩
            rcases hcond with h1 | h1
            · exact absurd h1 hne
            · exact absurd heq h1
        · rw [if_neg hcond]
          push_neg at hcond
          refine ⟨?_, fun _ => ⟨rfl, rfl, rfl, rfl, rfl, rfl⟩⟩
          simp only [hst, true_and, Option.some.injEq]
          exact ⟨fun _ => ⟨ans, rfl, hcond.1, hcond.2⟩, fun _ => trivial⟩
  · rw [if_pos hst]
    simp [hst]

/-- An outstanding math challenge with answer `42`, fused state `awake`. -/
def c2State : DetectorState :=
  { baseDetectorState with
    requireAck := true, latestState := .awake,
    challengeType := .math, challengeAnswer := some "42" }

/-- C2 counterexample. The source accepts the math answer after trimming the
input: on input `" 42"` (with a leading space) against stored answer `"42"`,
`silenceAlarm` returns true although the input does not match the answer
character for character. -/
theorem silence_trim_counterexample_c2 :
    (silenceAlarm c2State " 42").1 = true ∧ (" 42" : String) ≠ "42" := by
  constructor
  · have htrim : trimString " 42" = "42" := by decide
    simp [silenceAlarm, c2State, baseDetectorState, htrim]
  · decide

/-- Witness for C2 on the math challenge state with exact input `42`. -/
theorem silence_ack_c2_witness :
    c2State.requireAck = true ∧
    (((silenceAlarm c2State "42").1 = true ↔
      (c2State.latestState = AttentionState.awake ∧ answerMatches c2State "42")) ∧
    ((silenceAlarm c2State "42").1 = true →
      (silenceAlarm c2State "42").2.activeAlarms = [] ∧
      (silenceAlarm c2State "42").2.alarmPhrase = none ∧
      (silenceAlarm c2State "42").2.challengePrompt = none ∧
      (silenceAlarm c2State "42").2.challengeAnswer = none ∧
      (silenceAlarm c2State "42").2.requireAck = false ∧
      (silenceAlarm c2State "42").2.lastAlarmState = AttentionState.awake)) :=
  ⟨rfl, silence_ack_c2 c2State "42" rfl⟩

/-! ## Missing-landmark handling (handleLandmarks, `!detectedLandmarks` branch) -/

/-- The absence-countdown trigger: one batch of 5 sleeping alarms, a critical
tone, a math-or-trivia challenge, acknowledgment required, state forced
`sleeping` at confidence 0.99. The ghost counter `absenceAlarmFired` records
the firing. -/
def absenceTrigger (rng : Rng) (now : ℚ) (st : DetectorState) : DetectorState :=
  let batch := getAlarmBatch ALARM_LIBRARY_SLEEPING st.cursorSleeping 5 now
  assignNewChallenge (some (if rng.coin = true then .math else .trivia)) rng
    { st with
      activeAlarms := batch.1, cursorSleeping := batch.2, requireAck := true,
      lastAlarmState := .sleeping, state := .sleeping, confidence := 99/100,
      absenceAlarmFired := st.absenceAlarmFired + 1 }

/-- Mid-calibration landmark loss: discard the partial samples, surface a
neutral low-confidence `awake` state, clear alarms if no acknowledgment is
outstanding, and reset the absence countdown. -/
def calibrationMissingReset (st : DetectorState) : DetectorState :=
  let st1 :=
    { st with
      calibStartTimestamp := none, pitchSamples := [], earSamples := [],
      tiltSamples := [], faceWidthSamples := [], calibrationProgress := 0,
      state := .awake, confidence := 1/5 }
  let st2 := if st1.requireAck = false then resetAlarmState st1 else st1
  { st2 with absentStartTime := none, absentCountdown := none }

/-- Missing-frame fallback: the missing-frame count substitutes for the
closed-eye duration and is compared directly against the 3.5 s / 5 s
thresholds, raising the matching alarm tier. -/
def missingFallback (rng : Rng) (now missingSec : ℚ) (st : DetectorState) : DetectorState :=
  if EYES_CLOSED_SLEEP_SEC ≤ missingSec then
    let st1 := { st with latestState := AttentionState.sleeping }
    let st2 :=
      if st1.requireAck = false ∨ ¬ (st1.lastAlarmState = AttentionState.sleeping) then
        let batch := getAlarmBatch ALARM_LIBRARY_SLEEPING st1.cursorSleeping 5 now
        let st3 := { st1 with activeAlarms := batch.1, cursorSleeping := batch.2 }
        let st4 :=
          if st3.requireAck = false then
            assignNewChallenge (some (if rng.coin = true then .math else .trivia)) rng st3
          else assignNewChallenge (some .math) rng st3
        { st4 with requireAck := true, lastAlarmState := AttentionState.sleeping }
      else if st1.requireAck = true ∧ st1.activeAlarms = [] then
        let batch := getAlarmBatch ALARM_LIBRARY_SLEEPING st1.cursorSleeping 5 now
        { st1 with activeAlarms := batch.1, cursorSleeping := batch.2 }
      else st1
    { st2 with state := AttentionState.sleeping, confidence := 49/50 }
  else if ¬ (EYES_CLOSED_SLEEP_SEC ≤ missingSec) ∧ EYES_CLOSED_NOD_SEC ≤ missingSec then
    let st1 := { st with latestState := AttentionState.noddingOff }
    let st2 :=
      if st1.requireAck = false ∨ ¬ (st1.lastAlarmState = AttentionState.noddingOff) then
        let batch := getAlarmBatch ALARM_LIBRARY_NODDING st1.cursorNodding 4 now
        let st3 := { st1 with activeAlarms := batch.1, cursorNodding := batch.2 }
        let st4 := if st3.requireAck = false then assignNewChallenge none rng st3 else st3
        { st4 with requireAck := true, lastAlarmState := AttentionState.noddingOff }
      else if st1.requireAck = true ∧ st1.activeAlarms = [] then
        let batch := getAlarmBatch ALARM_LIBRARY_NODDING st1.cursorNodding 4 now
        { st1 with activeAlarms := batch.1, cursorNodding := batch.2 }
      else st1
    { st2 with state := AttentionState.noddingOff, confidence := 47/50 }
  else
    let st1 :=
      { st with
        latestState := AttentionState.awake, state := AttentionState.awake, confidence := 1/4 }
    if st1.requireAck = false then resetAlarmState st1 else st1

/-- The calibration check and fallback that run when the absence countdown
did not fire this frame. -/
def afterAbsence (rng : Rng) (now missingSec : ℚ) (st : DetectorState) : DetectorState :=
  if st.collecting = true then calibrationMissingReset st
  else missingFallback rng now missingSec st

/-- One missing-landmark frame (`handleLandmarks` with `null`): bump the
missing-frame counter, report it as eyes-closed seconds, run the armed
absence countdown (5 s wall clock from the first missing frame), then the
calibration reset or the threshold fallback. -/
def handleMissingFrame (rng : Rng) (now : ℚ) (st0 : DetectorState) : DetectorState :=
  let st :=
    { st0 with
      missingFaceFrames := st0.missingFaceFrames + 1,
      eyesClosedSec := ((st0.missingFaceFrames : ℚ) + 1) / FPS }
  let missingSec := (st.missingFaceFrames : ℚ) / FPS
  if st.isAbsenceAlarmArmed = true then
    let start := st.absentStartTime.getD now
    let absentDuration := (now - start) / 1000
    let stc :=
      { st with
        absentStartTime := some start, absentCountdown := some (max 0 (5 - absentDuration)) }
    if 5 ≤ absentDuration ∧ stc.requireAck = false then absenceTrigger rng now stc
    else afterAbsence rng now missingSec stc
  else afterAbsence rng now missingSec st

/-! ## Projection lemmas for the escalation helpers -/

@[simp] lemma assignNewChallenge_state (p : Option ChallengeType) (rng : Rng)
    (st : DetectorState) : (assignNewChallenge p rng st).state = st.state := by
  unfold assignNewChallenge
  dsimp only
  split_ifs <;> rfl

@[simp] lemma assignNewChallenge_confidence (p : Option ChallengeType) (rng : Rng)
    (st : DetectorState) : (assignNewChallenge p rng st).confidence = st.confidence := by
  unfold assignNewChallenge
  dsimp only
  split_ifs <;> rfl

@[simp] lemma assignNewChallenge_activeAlarms (p : Option ChallengeType) (rng : Rng)
    (st : DetectorState) : (assignNewChallenge p rng st).activeAlarms = st.activeAlarms := by
  unfold assignNewChallenge
  dsimp only
  split_ifs <;> rfl

@[simp] lemma assignNewChallenge_requireAck (p : Option ChallengeType) (rng : Rng)
    (st : DetectorState) : (assignNewChallenge p rng st).requireAck = st.requireAck := by
  unfold assignNewChallenge
  dsimp only
  split_ifs <;> rfl

@[simp] lemma assignNewChallenge_lastAlarmState (p : Option ChallengeType) (rng : Rng)
    (st : DetectorState) : (assignNewChallenge p rng st).lastAlarmState = st.lastAlarmState := by
  unfold assignNewChallenge
  dsimp only
  split_ifs <;> rfl

@[simp] lemma assignNewChallenge_armed (p : Option ChallengeType) (rng : Rng)
    (st : DetectorState) :
    (assignNewChallenge p rng st).isAbsenceAlarmArmed = st.isAbsenceAlarmArmed := by
  unfold assignNewChallenge
  dsimp only
  split_ifs <;> rfl

@[simp] lemma assignNewChallenge_fired (p : Option ChallengeType) (rng : Rng)
    (st : DetectorState) :
    (assignNewChallenge p rng st).absenceAlarmFired = st.absenceAlarmFired := by
  unfold assignNewChallenge
  dsimp only
  split_ifs <;> rfl

lemma absenceTrigger_props (rng : Rng) (now : ℚ) (st : DetectorState) :
    (absenceTrigger rng now st).state = AttentionState.sleeping ∧
    (absenceTrigger rng now st).confidence = 99/100 ∧
    (absenceTrigger rng now st).activeAlarms.length = 5 ∧
    (∀ a ∈ (absenceTrigger rng now st).activeAlarms, a.level = AlarmLevel.critical) ∧
    (absenceTrigger rng now st).requireAck = true ∧
    (absenceTrigger rng now st).absenceAlarmFired = st.absenceAlarmFired + 1 := by
  unfold absenceTrigger
  refine ⟨by simp, by simp, ?_, ?_, by simp, by simp⟩
  · simp only [assignNewChallenge_activeAlarms]
    exact getAlarmBatch_sleeping_length _ _
  · simp only [assignNewChallenge_activeAlarms]
    exact getAlarmBatch_sleeping_critical _ _

/-- C3. If the absence alarm is armed, calibration is complete, no
acknowledgment is outstanding, and landmark frames have been missing for 5.0
consecutive seconds of wall-clock time, the system forces state `sleeping`
with confidence 0.99, requires acknowledgment, and raises exactly one batch
of 5 sleeping-tier (critical) alarms — the ghost firing counter increments by
exactly one. -/
theorem absence_alarm_c3 (rng : Rng) (now t0 : ℚ) (st : DetectorState)
    (harm : st.isAbsenceAlarmArmed = true) (hack : st.requireAck = false)
    (hcal : st.collecting = false) (hstart : st.absentStartTime = some t0)
    (hdur : 5 ≤ (now - t0) / 1000) :
    (handleMissingFrame rng now st).state = AttentionState.sleeping ∧
    (handleMissingFrame rng now st).confidence = 99/100 ∧
    (handleMissingFrame rng now st).activeAlarms.length = 5 ∧
    (∀ a ∈ (handleMissingFrame rng now st).activeAlarms, a.level = AlarmLevel.critical) ∧
    (handleMissingFrame rng now st).requireAck = true ∧
    (handleMissingFrame rng now st).absenceAlarmFired = st.absenceAlarmFired + 1 := by
  have heq : handleMissingFrame rng now st =
      absenceTrigger rng now
        { st with
          missingFaceFrames := st.missingFaceFrames + 1,
          eyesClosedSec := ((st.missingFaceFrames : ℚ) + 1) / FPS,
          absentStartTime := some t0,
          absentCountdown := some (max 0 (5 - (now - t0) / 1000)) } := by
    unfold handleMissingFrame
    dsimp only
    rw [hstart]
    dsimp only [Option.getD]
    rw [if_pos harm, if_pos ⟨hdur, hack⟩]
  rw [heq]
  exact absenceTrigger_props rng now _

/-- State of a session whose face has been absent since t = 0. -/
def c3State : DetectorState := { baseDetectorState with absentStartTime := some 0 }

/-- A fixed random oracle. -/
def fixedRng : Rng :=
  { coin := true, typeChoice := 0, mathA := 57, mathB := 23, mathC := 4,
    phraseText := "FOCUS-ALERT-ENERGY-123",
    triviaPrompt := "What is the capital city of France?", triviaAnswer := "PARIS" }

/-- Witness for C3 at wall-clock time 5000 ms after the first missing frame. -/
theorem absence_alarm_c3_witness :
    c3State.isAbsenceAlarmArmed = true ∧ c3State.requireAck = false ∧
    c3State.collecting = false ∧ c3State.absentStartTime = some 0 ∧
    (5:ℚ) ≤ ((5000:ℚ) - 0) / 1000 ∧
    ((handleMissingFrame fixedRng 5000 c3State).state = AttentionState.sleeping ∧
     (handleMissingFrame fixedRng 5000 c3State).confidence = 99/100 ∧
     (handleMissingFrame fixedRng 5000 c3State).activeAlarms.length = 5 ∧
     (∀ a ∈ (handleMissingFrame fixedRng 5000 c3State).activeAlarms,
        a.level = AlarmLevel.critical) ∧
     (handleMissingFrame fixedRng 5000 c3State).requireAck = true ∧
     (handleMissingFrame fixedRng 5000 c3State).absenceAlarmFired
        = c3State.absenceAlarmFired + 1) :=
  ⟨rfl, rfl, rfl, rfl, by norm_num,
    absence_alarm_c3 fixedRng 5000 0 c3State rfl rfl rfl rfl (by norm_num)⟩

/-! ## C4: the absence countdown is a one-way latch -/

lemma calibrationMissingReset_armed_fired (st : DetectorState) :
    (calibrationMissingReset st).isAbsenceAlarmArmed = st.isAbsenceAlarmArmed ∧
    (calibrationMissingReset st).absenceAlarmFired = st.absenceAlarmFired := by
  unfold calibrationMissingReset resetAlarmState
  dsimp only
  split_ifs <;> exact ⟨rfl, rfl⟩

lemma missingFallback_armed_fired (rng : Rng) (now missingSec : ℚ) (st : DetectorState) :
    (missingFallback rng now missingSec st).isAbsenceAlarmArmed = st.isAbsenceAlarmArmed ∧
    (missingFallback rng now missingSec st).absenceAlarmFired = st.absenceAlarmFired := by
  unfold missingFallback resetAlarmState
  dsimp only
  split_ifs <;>
    constructor <;>
      simp [assignNewChallenge_armed, assignNewChallenge_fired]

lemma afterAbsence_armed_fired (rng : Rng) (now missingSec : ℚ) (st : DetectorState) :
    (afterAbsence rng now missingSec st).isAbsenceAlarmArmed = st.isAbsenceAlarmArmed ∧
    (afterAbsence rng now missingSec st).absenceAlarmFired = st.absenceAlarmFired := by
  unfold afterAbsence
  split_ifs
  · exact calibrationMissingReset_armed_fired st
  · exact missingFallback_armed_fired rng now missingSec st

lemma handleMissingFrame_disarmed (rng : Rng) (now : ℚ) (st : DetectorState)
    (h : st.isAbsenceAlarmArmed = false) :
    (handleMissingFrame rng now st).isAbsenceAlarmArmed = false ∧
    (handleMissingFrame rng now st).absenceAlarmFired = st.absenceAlarmFired := by
  unfold handleMissingFrame
  dsimp only
  rw [if_neg (by simp [h])]
  constructor
  · rw [(afterAbsence_armed_fired _ _ _ _).1]
    exact h
  · exact (afterAbsence_armed_fired _ _ _ _).2

/-- Fold one missing frame per event `(rng, now)` over the detector state. -/
def runMissingFrames (evs : List (Rng × ℚ)) (st : DetectorState) : DetectorState :=
  evs.foldl (fun s e => handleMissingFrame e.1 e.2 s) st

lemma runMissingFrames_disarmed (evs : List (Rng × ℚ)) (st : DetectorState)
    (h : st.isAbsenceAlarmArmed = false) :
    (runMissingFrames evs st).isAbsenceAlarmArmed = false ∧
    (runMissingFrames evs st).absenceAlarmFired = st.absenceAlarmFired := by
  induction evs generalizing st with
  | nil => exact ⟨h, rfl⟩
  | cons e rest ih =>
    unfold runMissingFrames
    simp only [List.foldl_cons]
    obtain ⟨h1, h2⟩ := handleMissingFrame_disarmed e.1 e.2 st h
    obtain ⟨h3, h4⟩ := ih (handleMissingFrame e.1 e.2 st) h1
    exact ⟨h3, h4.trans h2⟩

/-- C4. Once `disarmAbsenceAlarm` has run, the absence-countdown path can
never again fire for the remainder of the session: over any subsequent
sequence of missing-landmark frames, at arbitrary times and random draws, the
armed flag stays false and the ghost absence-firing counter never
increments. -/
theorem absence_disarm_latch_c4 (st : DetectorState) (evs : List (Rng × ℚ)) :
    (runMissingFrames evs (disarmAbsenceAlarm st)).isAbsenceAlarmArmed = false ∧
    (runMissingFrames evs (disarmAbsenceAlarm st)).absenceAlarmFired
      = (disarmAbsenceAlarm st).absenceAlarmFired :=
  runMissingFrames_disarmed evs (disarmAbsenceAlarm st) rfl

/-! ## Calibration (handleLandmarks, `calibrationRef.current.collecting` block)

The posture-baseline latch (`postureTracker.setBaseline`) that runs at
completion acts on the separate posture tracker and is outside this state. -/

/-- One landmark-present calibration frame: push the four raw samples, update
the coarse progress, and complete — publishing the baselines (median pitch,
mean ear/tilt/faceWidth) — exactly when the elapsed time reaches 4000 ms and
at least 90 samples have been collected; otherwise surface the neutral
calibrating state. -/
def calibrationStep (now p e t f : ℚ) (st : DetectorState) : DetectorState :=
  if st.collecting = true then
    let start := st.calibStartTimestamp.getD now
    let st1 :=
      { st with
        calibStartTimestamp := some start,
        pitchSamples := st.pitchSamples ++ [p],
        earSamples := st.earSamples ++ [e],
        tiltSamples := st.tiltSamples ++ [t],
        faceWidthSamples := st.faceWidthSamples ++ [f] }
    let elapsed := now - start
    let progress := min 1 (elapsed / CALIBRATION_DURATION_MS)
    let st2 :=
      if 1/20 ≤ progress - st1.calibrationProgress ∨ progress = 1 then
        { st1 with calibrationProgress := progress }
      else st1
    if CALIBRATION_DURATION_MS ≤ elapsed ∧ MIN_CALIBRATION_FRAMES ≤ st2.pitchSamples.length then
      { st2 with
        baselines := some
          { pitch := median st2.pitchSamples, ear := average st2.earSamples,
            tilt := average st2.tiltSamples, faceWidth := average st2.faceWidthSamples },
        collecting := false, calibrationProgress := 1 }
    else
      let st3 := { st2 with state := AttentionState.awake, confidence := 3/20 }
      if st3.requireAck = false then { st3 with activeAlarms := [] } else st3
  else st

/-- C8. While calibrating (no baseline yet), a landmark-present frame
completes calibration exactly when the elapsed collection time is ≥ 4000 ms
AND at least 90 samples (including this frame) have been collected; the
published baseline has pitch equal to the median of the pitch samples and
ear / tilt / faceWidth equal to the means of their samples. With fewer than
90 samples (or less than 4000 ms) the baseline remains `null`. -/
theorem calibration_completion_c8 (now p e t f : ℚ) (st : DetectorState)
    (hcol : st.collecting = true) (hb : st.baselines = none) :
    ((calibrationStep now p e t f st).baselines.isSome = true ↔
      (CALIBRATION_DURATION_MS ≤ now - st.calibStartTimestamp.getD now ∧
       MIN_CALIBRATION_FRAMES ≤ (st.pitchSamples ++ [p]).length)) ∧
    (∀ b, (calibrationStep now p e t f st).baselines = some b →
      b = { pitch := median (st.pitchSamples ++ [p]),
            ear := average (st.earSamples ++ [e]),
            tilt := average (st.tiltSamples ++ [t]),
            faceWidth := average (st.faceWidthSamples ++ [f]) }) := by
  unfold calibrationStep
  rw [if_pos hcol]
  dsimp only
  by_cases hA : (1:ℚ)/20 ≤ min 1 ((now - st.calibStartTimestamp.getD now) / CALIBRATION_DURATION_MS)
        - st.calibrationProgress
      ∨ min 1 ((now - st.calibStartTimestamp.getD now) / CALIBRATION_DURATION_MS) = 1
  · rw [if_pos hA]
    dsimp only
    by_cases hdone : CALIBRATION_DURATION_MS ≤ now - st.calibStartTimestamp.getD now ∧
        MIN_CALIBRATION_FRAMES ≤ (st.pitchSamples ++ [p]).length
    · rw [if_pos hdone]
      refine ⟨by simp only [Option.isSome_some]; exact ⟨fun _ => hdone, fun _ => trivial⟩, ?_⟩
      intro b hbeq
      simp only [Option.some.injEq] at hbeq
      exact hbeq.symm
    · rw [if_neg hdone]
      constructor
      · constructor
        · intro hsome
          exfalso
          revert hsome
          split_ifs <;> simp [hb]
        · intro hcond
          exact absurd hcond hdone
      · intro b hbeq
        exfalso
        revert hbeq
        split_ifs <;> simp [hb]
  · rw [if_neg hA]
    dsimp only
    by_cases hdone : CALIBRATION_DURATION_MS ≤ now - st.calibStartTimestamp.getD now ∧
        MIN_CALIBRATION_FRAMES ≤ (st.pitchSamples ++ [p]).length
    · rw [if_pos hdone]
      refine ⟨by simp only [Option.isSome_some]; exact ⟨fun _ => hdone, fun _ => trivial⟩, ?_⟩
      intro b hbeq
      simp only [Option.some.injEq] at hbeq
      exact hbeq.symm
    · rw [if_neg hdone]
      constructor
      · constructor
        · intro hsome
          exfalso
          revert hsome
          split_ifs <;> simp [hb]
        · intro hcond
          exact absurd hcond hdone
      · intro b hbeq
        exfalso
        revert hbeq
        split_ifs <;> simp [hb]

/-- A calibration in progress: 89 samples collected since t = 0. -/
def c8State : DetectorState :=
  { baseDetectorState with
    collecting := true, calibStartTimestamp := some 0,
    pitchSamples := List.replicate 89 2, earSamples := List.replicate 89 (1/4),
    tiltSamples := List.replicate 89 1, faceWidthSamples := List.replicate 89 (3/20) }

/-- Witness for C8: the 90th sample arriving at t = 4000 ms completes
calibration. -/
theorem calibration_completion_c8_witness :
    c8State.collecting = true ∧ c8State.baselines = none ∧
    (((calibrationStep 4000 2 (1/4) 1 (3/20) c8State).baselines.isSome = true ↔
      (CALIBRATION_DURATION_MS ≤ (4000:ℚ) - c8State.calibStartTimestamp.getD 4000 ∧
       MIN_CALIBRATION_FRAMES ≤ (c8State.pitchSamples ++ [2]).length)) ∧
    (∀ b, (calibrationStep 4000 2 (1/4) 1 (3/20) c8State).baselines = some b →
      b = { pitch := median (c8State.pitchSamples ++ [2]),
            ear := average (c8State.earSamples ++ [1/4]),
            tilt := average (c8State.tiltSamples ++ [1]),
            faceWidth := average (c8State.faceWidthSamples ++ [3/20]) })) :=
  ⟨rfl, rfl, calibration_completion_c8 4000 2 (1/4) 1 (3/20) c8State rfl rfl⟩
